import Mathlib

/-!
# Verification of the lazy_match_reading match pipeline, store and dispatcher

Shallow embedding of the core of the repository:

* `embedding_matcher.py` — the vector similarity filter (`EmbeddingMatcher.find_similar`);
* `llm_processor.py` — the verification stage (`ArticleMatcher._verify_with_llm`)
  and the match pipeline (`process_article` / `process_articles`);
* `database.py` — the SQLite-backed store (`ArticleDatabase`);
* `notifications.py` — the notification dispatcher (`NotificationManager`);
* `telegram_bot.py` — the interactive bot commands that read the store.

External providers (the sentence-embedding model, the generative-model
provider, the Telegram HTTP channel) are modelled as oracle parameters;
`float` similarity scores are modelled as rationals; wall-clock timestamps
as integers (seconds).  Everything else is translated
statement-by-statement from the Python source.
-/

namespace LazyMatch

/-! ## Python string primitives

The Python code manipulates strings with `split`, `strip`, `lower`,
`int(...)` and `float(...)`.  These are embedded over `List Char` with
structural (fuel-based) recursion so every definition evaluates inside the
kernel. -/

/-- The ASCII whitespace stripped by Python `str.strip()`. -/
def isPySpace (c : Char) : Bool :=
  c = ' ' || c = '\t' || c = '\n' || c = '\r' || c = '\x0b' || c = '\x0c'

/-- Python `str.strip()` (no argument): drop whitespace from both ends. -/
def pyStrip (l : List Char) : List Char :=
  ((l.dropWhile isPySpace).reverse.dropWhile isPySpace).reverse

/-- Worker for `pySplit`; the fuel starts at the string length so the
recursion is structural. -/
def pySplitGo (sep : List Char) : Nat → List Char → List Char → List (List Char)
  | _, [], acc => [acc.reverse]
  | 0, s, acc => [acc.reverse ++ s]
  | fuel + 1, c :: rest, acc =>
    if sep.isPrefixOf (c :: rest) then
      acc.reverse :: pySplitGo sep fuel ((c :: rest).drop sep.length) []
    else pySplitGo sep fuel rest (c :: acc)

/-- Python `s.split(sep)` for a non-empty separator: all parts between
non-overlapping occurrences of `sep`, scanned left to right. -/
def pySplit (s sep : String) : List String :=
  (pySplitGo sep.data s.data.length s.data []).map String.mk

/-- The value of a non-empty all-digit character list; `none` otherwise. -/
def digitsVal : List Char → Option Nat
  | [] => none
  | l => l.foldl (fun acc c =>
      match acc with
      | none => none
      | some n => if c.isDigit then some (n * 10 + (c.toNat - '0'.toNat)) else none)
      (some 0)

/-- Python `int(s)`: strip whitespace, optional sign, decimal digits;
`none` models the `ValueError` on anything else. -/
def parsePyInt (s : List Char) : Option ℤ :=
  match pyStrip s with
  | '-' :: ds => (digitsVal ds).map (fun n => -(n : ℤ))
  | '+' :: ds => (digitsVal ds).map (fun n => (n : ℤ))
  | ds => (digitsVal ds).map (fun n => (n : ℤ))

/-- Python `float(s)`, restricted to the plain decimal forms
`[sign]ddd[.ddd]` that can occur in this code's formatted relevance
strings; `none` models the `ValueError` on anything else. -/
def parseFloat (s : String) : Option ℚ :=
  let core := fun (l : List Char) =>
    let ip := l.takeWhile (· ≠ '.')
    let post := l.dropWhile (· ≠ '.')
    match post with
    | [] => (digitsVal ip).map (fun n => ((n : ℤ) : ℚ))
    | _ :: fp =>
      if ip.isEmpty && fp.isEmpty then none
      else
        let ipn := if ip.isEmpty then some 0 else digitsVal ip
        let fpn := if fp.isEmpty then some 0 else digitsVal fp
        match ipn, fpn with
        | some a, some b => some (mkRat ((a : ℤ) * 10 ^ fp.length + (b : ℤ)) (10 ^ fp.length))
        | _, _ => none
  match pyStrip s.data with
  | '-' :: rest => (core rest).map (fun q => -q)
  | '+' :: rest => core rest
  | rest => core rest

/-! ## Two-decimal float formatting

Several places format a score with Python `f"{score:.2f}"` and later parse
it back with `float(...)`.  The formatting is modelled exactly on the
rational value: round `100 * q` to the nearest integer, ties to even
(Python/IEEE rounding), and print it with two decimals. -/

/-- Round-half-even of `100 * q` as an integer: the number of hundredths
shown by `f"{q:.2f}"`. -/
def hundredths (q : ℚ) : ℤ :=
  let n : ℤ := q.num * 100
  let d : ℤ := (q.den : ℤ)
  let fl : ℤ := Int.fdiv n d
  let r : ℤ := n - fl * d
  if 2 * r < d then fl
  else if d < 2 * r then fl + 1
  else if fl % 2 = 0 then fl else fl + 1

/-- The numeric value recovered by `float(f"{q:.2f}")`: `q` rounded to two
decimal places. -/
def round2 (q : ℚ) : ℚ := mkRat (hundredths q) 100

/-- Print a non-negative hundredths count as `d.dd`. -/
def fmt2Nat (m : Nat) : String :=
  toString (m / 100) ++ "." ++ (if m % 100 < 10 then "0" else "") ++ toString (m % 100)

/-- Python `f"{q:.2f}"`. -/
def fmt2 (q : ℚ) : String :=
  let n := hundredths q
  if n < 0 then "-" ++ fmt2Nat n.natAbs else fmt2Nat n.natAbs

/-- The relevance display string written by `process_article` and by
`get_all_articles` / `get_article_by_url`:
`f'Verified match (similarity: {score:.2f})'`. -/
def relevanceString (q : ℚ) : String :=
  "Verified match (similarity: " ++ fmt2 q ++ ")"

/-- The relevance display string produced by `get_recent_articles`,
`get_unsent_telegram_articles` and `get_articles_by_timeframe`:
`f'Verified {match_type} match (similarity: {score:.2f})'`. -/
def relevanceTyped (t : String) (q : ℚ) : String :=
  "Verified " ++ t ++ " match (similarity: " ++ fmt2 q ++ ")"

/-- The score extraction idiom used by `save_article`,
`TelegramBot.recent_command` / `timeframe_command` and
`NotificationManager.get_new_articles`:
`float(s.split('similarity: ')[1].split(')')[0])`.
`none` models the `IndexError` (fewer than two parts) or `ValueError`
(non-numeric) raised on a malformed string. -/
def extractScore (s : String) : Option ℚ :=
  match pySplit s "similarity: " with
  | _ :: p :: _ => parseFloat (String.mk (p.data.takeWhile (· ≠ ')')))
  | _ => none

/-! ## Vector similarity filter (`embedding_matcher.py`)

`EmbeddingMatcher.find_similar(query, texts, top_k=5)` computes one cosine
similarity per entry of `texts` (via the external sentence-transformer
model), then

```python
top_indices = np.argsort(similarities[0])[-top_k:][::-1]
return [{"text": texts[idx], "score": float(similarities[0][idx])}
        for idx in top_indices
        if similarities[0][idx] > config.EMBEDDING_SIMILARITY_THRESHOLD]
```

We embed everything after the model call, taking the list of similarity
scores as input; the result pairs each surviving index with its score.
`np.argsort` sorts ascending (for the small inputs of the concrete
theorems below numpy's introsort is insertion sort, which keeps equal
elements in original index order); the Python slice `l[-top_k:]` keeps the
*whole* list when `top_k = 0` because `-0 == 0`. -/

/-- Config constant `EMBEDDING_SIMILARITY_THRESHOLD = 0.7`. -/
def EMBEDDING_SIMILARITY_THRESHOLD : ℚ := mkRat 7 10

/-- Config constant `TELEGRAM_NOTIFICATION_THRESHOLD = 0.7`. -/
def TELEGRAM_NOTIFICATION_THRESHOLD : ℚ := mkRat 7 10

/-- Ascending argsort of a score list: the indices `0..n-1` sorted by
score, equal scores keeping their original index order. -/
def argsortAsc (sims : List ℚ) : List Nat :=
  List.insertionSort (fun i j => sims.getD i 0 ≤ sims.getD j 0) (List.range sims.length)

/-- Python slice `l[-k:]`: the last `k` elements — except that `k = 0`
yields the whole list, since `-0 == 0` and `l[0:]` is `l`. -/
def pySliceLast {α : Type} (l : List α) (k : Nat) : List α :=
  if k = 0 then l else l.drop (l.length - k)

/-- Embedding of `EmbeddingMatcher.find_similar`, from the similarity scores on:
argsort ascending, keep the slice `[-top_k:]`, reverse, and filter to the
entries strictly above the threshold
(`config.EMBEDDING_SIMILARITY_THRESHOLD` in the source; a parameter
here).  Each output entry is `(index into texts, score)`. -/
def findSimilar (sims : List ℚ) (top_k : Nat) (threshold : ℚ) : List (Nat × ℚ) :=
  (((pySliceLast (argsortAsc sims) top_k).reverse).filter
      (fun i => decide (threshold < sims.getD i 0))).map
    (fun i => (i, sims.getD i 0))

/-! ## Verification stage (`llm_processor.ArticleMatcher._verify_with_llm`) -/

/-- One entry of the list `_verify_with_llm` returns:
`{'question': q, 'is_relevant': answer == 'yes', 'llm_response': answer}`. -/
structure VerificationResult where
  question : String
  is_relevant : Bool
  llm_response : String
deriving DecidableEq, Repr

/-- Parse one line of the provider response (source lines 134–147):
strip it, require a leading digit, split once at the first `'.'`, read the
1-based question number before it and the lower-cased answer after it, and
keep the pair only when the number is in range.  `none` covers every
`continue` branch. -/
def parseAnswerLine (questions : List String) (line : String) : Option (Nat × String) :=
  let t := pyStrip line.data
  match t with
  | [] => none
  | c :: _ =>
    if !c.isDigit then none
    else
      let pre := t.takeWhile (· ≠ '.')
      let post := t.dropWhile (· ≠ '.')
      match post with
      | [] => none
      | _ :: after =>
        match parsePyInt pre with
        | none => none
        | some i =>
          let qn := i - 1
          let answer := String.mk ((pyStrip after).map Char.toLower)
          if 0 ≤ qn ∧ qn < (questions.length : ℤ) then some (qn.toNat, answer) else none

/-- Insert-or-replace into an association list (Python dict assignment). -/
def dictInsert (m : List (String × String)) (k v : String) : List (String × String) :=
  if m.any (fun p => p.1 == k) then
    m.map (fun p => if p.1 == k then (k, v) else p)
  else m ++ [(k, v)]

/-- The `answers` dict built from the provider response: fold the parsed
lines, keyed by the question text, later lines overwriting earlier ones. -/
def answersOf (questions : List String) (response : String) : List (String × String) :=
  (pySplit response "\n").foldl (fun m line =>
    match parseAnswerLine questions line with
    | some (i, a) => dictInsert m (questions.getD i "") a
    | none => m) []

/-- Source lines 152–160: one output per input question, in input order,
defaulting to `'no'` when the dict has no answer for the question. -/
def buildResults (questions : List String) (answers : List (String × String)) :
    List VerificationResult :=
  questions.map (fun q =>
    let a := (answers.lookup q).getD "no"
    ⟨q, a == "yes", a⟩)

/-- Parsing plus result assembly for one successful provider response. -/
def parseVerifications (questions : List String) (response : String) :
    List VerificationResult :=
  buildResults questions (answersOf questions response)

/-- What one attempt of the retry loop observes from the generative-model
provider: a response text, a rate-limit/quota signal (HTTP 429 for ollama,
`ResourceExhausted` quota for Gemini), or any other exception. -/
inductive AttemptOutcome
  | success (text : String)
  | rateLimit (msg : String)
  | otherError (msg : String)
deriving DecidableEq, Repr

/-- Whether the attempt produced a response. -/
def AttemptOutcome.isSuccess : AttemptOutcome → Bool
  | .success _ => true
  | _ => false

/-- The exception message of a failed attempt (`str(e)` in the source). -/
def AttemptOutcome.failMsg : AttemptOutcome → Option String
  | .success _ => none
  | .rateLimit msg => some msg
  | .otherError msg => some msg

/-- The degraded result returned after the retry loop exhausts all
attempts (source lines 172–178): `is_relevant=False` and
`llm_response = f"Error: {last_exception or 'Unknown error'}"` for every
question. -/
def errorList (questions : List String) (lastExc : Option String) :
    List VerificationResult :=
  questions.map (fun q => ⟨q, false, "Error: " ++ lastExc.getD "Unknown error"⟩)

/-- The retry loop of `_verify_with_llm` (source lines 87–178).
`remaining` counts the attempts still allowed (initially `retry_count`),
`attempt` is the 0-based index fed to the provider oracle.  A successful
response is parsed and returned; every failure either moves to the next
attempt (when one is left: the Python code sleeps, records
`last_exception` and `continue`s, both for the rate-limit branches and via
the outer `except`) or — on the last attempt — falls through to the
degraded `errorList`.  No branch re-raises past the function. -/
def verifyGo (questions : List String) (oracle : Nat → AttemptOutcome) :
    Nat → Nat → Option String → List VerificationResult
  | 0, _, lastExc => errorList questions lastExc
  | remaining + 1, attempt, _ =>
    match oracle attempt with
    | .success text => parseVerifications questions text
    | .rateLimit msg =>
      if remaining = 0 then errorList questions (some msg)
      else verifyGo questions oracle remaining (attempt + 1) (some msg)
    | .otherError msg =>
      if remaining = 0 then errorList questions (some msg)
      else verifyGo questions oracle remaining (attempt + 1) (some msg)

/-- Embedding of `ArticleMatcher._verify_with_llm(article, questions, retry_count=3)`
with the provider abstracted into `oracle`.  An empty question list
returns `[]` before any provider call. -/
def verifyWithLlm (questions : List String) (oracle : Nat → AttemptOutcome)
    (retry_count : Nat) : List VerificationResult :=
  if questions.isEmpty then [] else verifyGo questions oracle retry_count 0 none

/-! ## Persistence layer (`database.ArticleDatabase`) -/

/-- A match dict as passed to `save_article` (and as produced by
`process_article`): keys `question`, `relevance`, `llm_response`, `type`. -/
structure PyMatchIn where
  question : String
  relevance : String
  llm_response : String
  mtype : String
deriving DecidableEq, Repr

/-- An article dict as passed to `save_article`. -/
structure ArticleIn where
  title : String
  url : String
  source : String
  content : String
  date : String
  matches' : List PyMatchIn
deriving DecidableEq, Repr

/-- One row of the `articles` table. -/
structure ArticleRow where
  id : Nat
  title : String
  url : String
  source : String
  content : String
  date : String
  created_at : Int
  verified_at : Int
  sent_to_telegram : Bool
  telegram_sent_at : Option Int
deriving DecidableEq, Repr

/-- One row of the `matches` table. -/
structure MatchRow where
  article_id : Nat
  question : String
  similarity_score : ℚ
  llm_response : String
  match_type : String
deriving DecidableEq, Repr

/-- The SQLite database: both tables plus the articles AUTOINCREMENT
counter (rowids start at 1). -/
structure DB where
  articles : List ArticleRow
  matches' : List MatchRow
  nextId : Nat
deriving DecidableEq, Repr

/-- A freshly initialised database. -/
def emptyDB : DB := ⟨[], [], 1⟩

deriving instance DecidableEq for Except

/-- Embedding of `ArticleDatabase.save_article` (source lines 70–112).

* `INSERT OR IGNORE INTO articles ...`: insert only when no row has the
  url; `created_at`, `verified_at` and the unsent flag are set on insert.
* `cursor.lastrowid`: each call opens a fresh connection, so after the
  `INSERT OR IGNORE` statement it is `sqlite3_last_insert_rowid()` — the
  fresh rowid when the insert happened, and `0` when the insert was
  ignored (no successful insert on this connection).  It is *never*
  `None`, so the `if article_id is None` recovery branch is dead code.
* The matches loop extracts each score with
  `float(match['relevance'].split('similarity: ')[1].split(')')[0])`; on a
  malformed string this raises, the `with` block rolls the transaction
  back and the exception propagates (`Except.error` here, store
  unchanged). -/
def saveArticle (now : Int) (db : DB) (a : ArticleIn) : Except String (DB × Nat) :=
  let urlExists := db.articles.any (fun r => r.url == a.url)
  let inserted : DB × Nat :=
    if urlExists then (db, 0)
    else
      ({ db with
          articles := db.articles ++
            [⟨db.nextId, a.title, a.url, a.source, a.content, a.date, now, now, false, none⟩],
          nextId := db.nextId + 1 },
        db.nextId)
  let db1 := inserted.1
  let lastrowid : Option Nat := some inserted.2
  let article_id : Nat :=
    match lastrowid with
    | none => (((db1.articles.find? (fun r => r.url == a.url)).map (fun r => r.id)).getD 0)
    | some v => v
  match a.matches'.mapM (fun m =>
      (extractScore m.relevance).map (fun sc =>
        MatchRow.mk article_id m.question sc m.llm_response m.mtype)) with
  | none => .error "IndexError/ValueError extracting similarity score"
  | some rows => .ok ({ db1 with matches' := db1.matches' ++ rows }, article_id)

/-- Embedding of `ArticleDatabase.mark_article_sent_to_telegram` (source lines
252–266): `UPDATE articles SET sent_to_telegram = 1, telegram_sent_at = ?
WHERE id = ?`; returns `cursor.rowcount > 0`.  The update is not guarded
on the current flag value. -/
def markArticleSentToTelegram (now : Int) (db : DB) (article_id : Nat) : DB × Bool :=
  let rowcount := (db.articles.filter (fun r => r.id == article_id)).length
  ({ db with
      articles := db.articles.map (fun r =>
        if r.id == article_id then
          { r with sent_to_telegram := true, telegram_sent_at := some now }
        else r) },
    decide (0 < rowcount))

/-- A match dict as returned by the accessors. -/
structure DisplayMatch where
  question : String
  relevance : String
  llm_response : String
  mtype : String
deriving DecidableEq, Repr

/-- An article dict as returned by the accessors (`id` is included only by
`get_unsent_telegram_articles` / `get_articles_by_timeframe`). -/
structure DisplayArticle where
  id : Option Nat
  title : String
  url : String
  source : String
  content : String
  date : String
  created_at : Int
  verified_at : Int
  matches' : List DisplayMatch
deriving DecidableEq, Repr

/-- The matches of one article (`SELECT ... FROM matches WHERE article_id = ?`). -/
def matchesFor (db : DB) (aid : Nat) : List MatchRow :=
  db.matches'.filter (fun m => m.article_id == aid)

/-- SQL `ORDER BY verified_at DESC`. -/
def sortByVerifiedDesc (l : List ArticleRow) : List ArticleRow :=
  List.insertionSort (fun a b => b.verified_at ≤ a.verified_at) l

/-- Embedding of `ArticleDatabase.get_recent_articles(limit)` (source lines 320–365):
recent-first, each match rendered with
`f'Verified {match_type} match (similarity: {score:.2f})'`. -/
def getRecentArticles (db : DB) (limit : Nat) : List DisplayArticle :=
  ((sortByVerifiedDesc db.articles).take limit).map (fun r =>
    ⟨none, r.title, r.url, r.source, r.content, r.date, r.created_at, r.verified_at,
      (matchesFor db r.id).map (fun m =>
        ⟨m.question, relevanceTyped m.match_type m.similarity_score,
          m.llm_response, m.match_type⟩)⟩)

/-- Embedding of `ArticleDatabase.get_all_articles` (source lines 114–157): every
article, each match rendered with
`f'Verified match (similarity: {score:.2f})'` (no type). -/
def getAllArticles (db : DB) : List DisplayArticle :=
  (sortByVerifiedDesc db.articles).map (fun r =>
    ⟨none, r.title, r.url, r.source, r.content, r.date, r.created_at, r.verified_at,
      (matchesFor db r.id).map (fun m =>
        ⟨m.question, relevanceString m.similarity_score, m.llm_response, ""⟩)⟩)

/-- Embedding of `ArticleDatabase.get_unsent_telegram_articles(limit)` (source lines
203–250): unsent articles only, recent-first, ids included, typed
relevance strings. -/
def getUnsentTelegramArticles (db : DB) (limit : Nat) : List DisplayArticle :=
  ((sortByVerifiedDesc (db.articles.filter (fun r => !r.sent_to_telegram))).take limit).map
    (fun r =>
      ⟨some r.id, r.title, r.url, r.source, r.content, r.date, r.created_at, r.verified_at,
        (matchesFor db r.id).map (fun m =>
          ⟨m.question, relevanceTyped m.match_type m.similarity_score,
            m.llm_response, m.match_type⟩)⟩)

/-! ## Match pipeline (`llm_processor.process_article` / `process_articles`) -/

/-- An input document from the fetcher. -/
structure InArticle where
  title : String
  url : String
  source : String
  content : String
  date : String
deriving DecidableEq, Repr

/-- The processed-article dict `process_article` returns. -/
structure ProcessedArticle where
  title : String
  url : String
  source : String
  content : String
  date : String
  matches' : List PyMatchIn
deriving DecidableEq, Repr

/-- Source lines 196–204: zip the stage-1 matches with the verification
results positionally and keep the relevant ones, rendering the relevance
display string with the stage-1 score. -/
def verifiedMatchesOf (simMatches : List (String × ℚ))
    (verifications : List VerificationResult) : List PyMatchIn :=
  (simMatches.zip verifications).filterMap (fun p =>
    if p.2.is_relevant then
      some ⟨p.1.1, relevanceString p.1.2, p.2.llm_response, "match"⟩
    else none)

/-- Embedding of `ArticleMatcher.process_article` (source lines 180–231), from the
stage-1 similarity result on (`simMatches` is `find_similar`'s output as
`(query text, score)` pairs).  The article is saved only when at least one
verified match remains; an exception inside the `try` block (in this model
only `save_article` can raise) is caught and mapped to the fallback dict
with empty `matches`, leaving the store unchanged. -/
def processArticle (a : InArticle) (simMatches : List (String × ℚ))
    (oracle : Nat → AttemptOutcome) (now : Int) (db : DB) : ProcessedArticle × DB :=
  let questions := simMatches.map (fun m => m.1)
  let verifications := verifyWithLlm questions oracle 3
  let verified := verifiedMatchesOf simMatches verifications
  let pa : ProcessedArticle := ⟨a.title, a.url, a.source, a.content, a.date, verified⟩
  if verified.isEmpty then (pa, db)
  else
    match saveArticle now db ⟨a.title, a.url, a.source, a.content, a.date, verified⟩ with
    | .ok (db2, _) => (pa, db2)
    | .error _ => (⟨a.title, a.url, a.source, "", "", []⟩, db)

/-- Embedding of `ArticleMatcher.process_articles` (source lines 233–238): process each
article in turn, yielding only those with a non-empty match list.  The
generator is modelled as the list of yielded articles plus the final
store. -/
def processArticles (articles : List (InArticle × List (String × ℚ)))
    (oracle : Nat → AttemptOutcome) (now : Int) (db : DB) :
    List ProcessedArticle × DB :=
  articles.foldl (fun acc x =>
    let r := processArticle x.1 x.2 oracle now acc.2
    (if r.1.matches'.isEmpty then acc.1 else acc.1 ++ [r.1], r.2)) ([], db)

/-! ## Notification dispatcher (`notifications.NotificationManager`) -/

/-- One entry of `get_new_articles`'s result. -/
structure NewEntry where
  id : String
  title : String
  url : String
  source : String
  date : String
  question : String
  similarity_score : ℚ
  llm_response : String
deriving DecidableEq, Repr

/-- The dispatcher's in-memory state: the shared store and the moving
checkpoint `last_check_time`. -/
structure NotifState where
  db : DB
  last_check_time : Int
  enabled : Bool
deriving DecidableEq, Repr

/-- Embedding of `NotificationManager.__init__`: the checkpoint starts five minutes in
the past (`datetime.utcnow() - timedelta(minutes=5)`). -/
def initNotifState (db : DB) (now : Int) (enabled : Bool) : NotifState :=
  ⟨db, now - 300, enabled⟩

/-- Embedding of `NotificationManager.get_new_articles` (source lines 101–132): scan
`get_recent_articles(limit=100)`, keep articles newer than the
checkpoint, and emit one entry per match whose score — re-parsed out of
the relevance display string — meets `TELEGRAM_NOTIFICATION_THRESHOLD`;
a match whose string does not parse is skipped (`except ... continue`). -/
def getNewArticles (st : NotifState) : List NewEntry :=
  (getRecentArticles st.db 100).foldl (fun acc article =>
    if st.last_check_time < article.created_at then
      acc ++ article.matches'.filterMap (fun m =>
        match extractScore m.relevance with
        | none => none
        | some score =>
          if TELEGRAM_NOTIFICATION_THRESHOLD ≤ score then
            some ⟨article.url, article.title, article.url, article.source, article.date,
              m.question, score, m.llm_response⟩
          else none)
    else acc) []

/-- The HTML notification message built in `check_and_notify`. -/
def formatMessage (e : NewEntry) : String :=
  "📰 <b>New Article Match!</b>\n\n<b>Title:</b> " ++ e.title ++
  "\n<b>Source:</b> " ++ e.source ++
  "\n<b>Match Score:</b> " ++ fmt2 e.similarity_score ++
  "\n<b>Question:</b> " ++ e.question ++ "\n\n" ++ e.llm_response ++
  "\n\n🔗 <a href=\x27" ++ e.url ++ "\x27>Read more</a>"

/-- Embedding of `NotificationManager.check_and_notify` (source lines 134–158): when
enabled, fetch the new entries, send one message per entry (the Boolean
send result is discarded), then advance the checkpoint to now.  The
database is never written — in particular `mark_article_sent_to_telegram`
is never called.  Returns the new state and the messages attempted. -/
def checkAndNotify (st : NotifState) (now : Int) (channel : String → Bool) :
    NotifState × List String :=
  if !st.enabled then (st, [])
  else
    let messages := (getNewArticles st).map formatMessage
    let _ := messages.map channel
    ({ st with last_check_time := now }, messages)

/-- What one POST to the Telegram API can produce, as seen by
`send_telegram_message`: a response (status code plus `is_success`), an
`httpx.HTTPStatusError`, or any other exception. -/
inductive ChannelOutcome
  | resp (status : Nat) (success : Bool)
  | httpStatusError
  | otherExn
deriving DecidableEq, Repr

/-- The `for parse_mode in ["html", None]` loop of
`send_telegram_message` (source lines 47–99).  Returns the overall result
and the list of parse modes actually attempted.  The two `continue`
branches compare `parse_mode == "HTML"` — note the upper case — while the
loop values are `"html"` and `None`. -/
def sendLoop (channel : Option String → ChannelOutcome) :
    List (Option String) → List (Option String) → Bool × List (Option String)
  | [], attempts => (false, attempts)
  | pm :: rest, attempts =>
    let attempts := attempts ++ [pm]
    match channel pm with
    | .resp _ true => (true, attempts)
    | .resp status false =>
      if status = 400 ∧ pm = some "HTML" then sendLoop channel rest attempts
      else (false, attempts)
    | .httpStatusError =>
      if pm = some "HTML" then sendLoop channel rest attempts
      else (false, attempts)
    | .otherExn => (false, attempts)

/-- Embedding of `NotificationManager.send_telegram_message(message)` with the HTTP
channel abstracted into `channel` (one outcome per parse mode).  The early
guards and the 4000-character truncation precede the send loop. -/
def sendTelegramMessage (enabled tokenSet userIdSet : Bool) (message : String)
    (channel : Option String → ChannelOutcome) : Bool × List (Option String) :=
  if !enabled then (false, [])
  else if !tokenSet || !userIdSet then (false, [])
  else if (pyStrip message.data).isEmpty then (false, [])
  else
    let _truncated :=
      if 4000 < message.length then String.mk (message.data.take 4000) ++ "... [truncated]"
      else message
    sendLoop channel [some "html", none] []

/-! ## Interactive bot (`telegram_bot.TelegramBot.recent_command`) -/

/-- The per-article maximum-score computation of `recent_command` (source
lines 97–104) and `timeframe_command`:

```python
try:
    max_score = max(float(match.get('relevance').split('similarity: ')[1].split(')')[0])
                    for match in article['matches'])
except (ValueError, KeyError, IndexError):
    max_score = 0.0
```

`max` consumes the generator, so one malformed relevance string aborts the
whole computation and the handler resets `max_score` to `0.0`; the empty
list also lands on `0.0` via `max(())`'s `ValueError`. -/
def recentMaxScore (ms : List DisplayMatch) : ℚ :=
  match ms.mapM (fun m => extractScore m.relevance) with
  | some (s :: rest) => rest.foldl max s
  | _ => 0


/-! # Theorems -/

/-! ## C6 — `find_similar` ordering, threshold and truncation -/

/-- Claim C6, counterexample.  The claim says ties between equal scores are
broken by *original* query order and the result has at most `top_k`
entries for every `top_k`.  With two equal scores `0.8` the output comes
back in *reverse* original order (`np.argsort` ascending is reversed),
and with `top_k = 0` the Python slice `[-0:]` keeps everything, so one
entry above the threshold survives instead of zero. -/
theorem findSimilar_tie_topk_cex :
    findSimilar [mkRat 4 5, mkRat 4 5] 5 (mkRat 1 2) = [(1, mkRat 4 5), (0, mkRat 4 5)] ∧
    (findSimilar [mkRat 3 5] 0 (mkRat 1 2)).length = 1 := by
  constructor <;> decide

/-- Claim C6, amended.  For every score list, `top_k` and threshold,
`find_similar` returns only entries whose score is strictly greater than
the threshold (each paired with its own score), sorted in non-increasing
score order; when `top_k ≥ 1` the result has at most `top_k` entries
(`top_k = 0` disables truncation); ties between equal scores are *not*
broken by original query order — the ascending argsort is reversed, so
equal scores come back latest-first. -/
theorem findSimilar_spec (sims : List ℚ) (k : Nat) (t : ℚ) :
    (∀ p ∈ findSimilar sims k t, t < p.2 ∧ sims.getD p.1 0 = p.2) ∧
    List.Pairwise (fun a b : Nat × ℚ => b.2 ≤ a.2) (findSimilar sims k t) ∧
    (1 ≤ k → (findSimilar sims k t).length ≤ k) := by
  refine ⟨?_, ?_, ?_⟩
  · intro p hp
    simp only [findSimilar, List.mem_map, List.mem_filter, decide_eq_true_eq] at hp
    obtain ⟨i, ⟨_, hi⟩, rfl⟩ := hp
    exact ⟨hi, rfl⟩
  · have hsorted : List.Pairwise (fun i j => sims.getD i 0 ≤ sims.getD j 0) (argsortAsc sims) := by
      haveI ht : IsTotal Nat (fun i j => sims.getD i 0 ≤ sims.getD j 0) :=
        ⟨fun a b => le_total _ _⟩
      haveI htr : IsTrans Nat (fun i j => sims.getD i 0 ≤ sims.getD j 0) :=
        ⟨fun a b c hab hbc => le_trans hab hbc⟩
      exact List.sorted_insertionSort _ _
    have hslice : (pySliceLast (argsortAsc sims) k).Sublist (argsortAsc sims) := by
      unfold pySliceLast
      split
      · exact List.Sublist.refl _
      · exact List.drop_sublist _ _
    have h1 : List.Pairwise (fun i j => sims.getD i 0 ≤ sims.getD j 0)
        (pySliceLast (argsortAsc sims) k) := hsorted.sublist hslice
    have h2 : List.Pairwise (fun i j => sims.getD j 0 ≤ sims.getD i 0)
        (pySliceLast (argsortAsc sims) k).reverse := by
      rw [List.pairwise_reverse]
      exact h1
    have h3 : List.Pairwise (fun i j => sims.getD j 0 ≤ sims.getD i 0)
        ((pySliceLast (argsortAsc sims) k).reverse.filter
          (fun i => decide (t < sims.getD i 0))) :=
      h2.sublist (List.filter_sublist _)
    unfold findSimilar
    exact (List.pairwise_map).mpr h3
  · intro hk
    unfold findSimilar
    calc ((((pySliceLast (argsortAsc sims) k).reverse).filter
            (fun i => decide (t < sims.getD i 0))).map (fun i => (i, sims.getD i 0))).length
        = (((pySliceLast (argsortAsc sims) k).reverse).filter
            (fun i => decide (t < sims.getD i 0))).length := List.length_map _ _
      _ ≤ ((pySliceLast (argsortAsc sims) k).reverse).length := List.length_filter_le _ _
      _ = (pySliceLast (argsortAsc sims) k).length := List.length_reverse _
      _ ≤ k := by
          unfold pySliceLast
          split
          · omega
          · rw [List.length_drop]; omega

/-- Claim C6, witness for the amended theorem: at one query with score `0.9`,
threshold `0.7` and `top_k = 1`, the truncation bound applies. -/
theorem findSimilar_spec_witness :
    (findSimilar [mkRat 9 10] 1 (mkRat 7 10)).length ≤ 1 :=
  (findSimilar_spec [mkRat 9 10] 1 (mkRat 7 10)).2.2 (by decide)

/-! ## C3 — `mark_article_sent_to_telegram` -/

/-- Claim C3, counterexample.  The claim says a second call on the same id
returns `false` and changes `telegram_sent_at` at most once.  On a store
with one article, marking id 1 at time 3 and again at time 5 returns
`true` the second time as well, and the timestamp is overwritten to 5:
the `UPDATE` has no `sent_to_telegram = 0` guard, so `rowcount` is 1
whenever the id exists. -/
theorem markSent_second_call_cex :
    ((markArticleSentToTelegram 5 (markArticleSentToTelegram 3
        ⟨[⟨1, "t", "u", "s", "c", "d", 0, 0, false, none⟩], [], 2⟩ 1).1 1).2 = true) ∧
    ((markArticleSentToTelegram 5 (markArticleSentToTelegram 3
        ⟨[⟨1, "t", "u", "s", "c", "d", 0, 0, false, none⟩], [], 2⟩ 1).1 1).1.articles.map
      (fun r => r.telegram_sent_at) = [some 5]) := by
  constructor <;> decide

/-- Claim C3, amended.  The operation `mark_article_sent_to_telegram` sets the flag and
returns `true` on *every* call whose id exists — the first call on an
undelivered row sets `delivered=true` and `delivered_at` and returns
`true`, but a repeated call also returns `true` and overwrites
`delivered_at` with the new time (the update is unconditional on the
flag); only an unknown id returns `false`, leaving the store unchanged. -/
theorem markSent_spec (db : DB) (aid : Nat) (t : Int) :
    (db.articles.any (fun r => r.id == aid) = true →
      (markArticleSentToTelegram t db aid).2 = true ∧
      ∀ r ∈ (markArticleSentToTelegram t db aid).1.articles,
        r.id = aid → r.sent_to_telegram = true ∧ r.telegram_sent_at = some t) ∧
    (db.articles.any (fun r => r.id == aid) = false →
      (markArticleSentToTelegram t db aid).2 = false ∧
      (markArticleSentToTelegram t db aid).1 = db) := by
  constructor
  · intro hex
    constructor
    · obtain ⟨r, hr, hid⟩ := List.any_eq_true.mp hex
      have hmem : r ∈ db.articles.filter (fun r => r.id == aid) :=
        List.mem_filter.mpr ⟨hr, hid⟩
      have hpos : 0 < (db.articles.filter (fun r => r.id == aid)).length :=
        List.length_pos.mpr (List.ne_nil_of_mem hmem)
      simp only [markArticleSentToTelegram, decide_eq_true_eq]
      exact hpos
    · intro r hr hid
      simp only [markArticleSentToTelegram, List.mem_map] at hr
      obtain ⟨r₀, _, rfl⟩ := hr
      by_cases h : r₀.id == aid
      · simp [h]
      · simp only [h, if_false] at hid ⊢
        exact absurd (beq_iff_eq.mpr hid) (by simpa using h)
  · intro hnone
    have hall : ∀ r ∈ db.articles, (r.id == aid) = false := by
      intro r hr
      cases h : (r.id == aid) with
      | false => rfl
      | true =>
        have hany : db.articles.any (fun r => r.id == aid) = true :=
          List.any_eq_true.mpr ⟨r, hr, h⟩
        rw [hnone] at hany
        simp at hany
    constructor
    · have hfil : db.articles.filter (fun r => r.id == aid) = [] :=
        List.filter_eq_nil_iff.mpr (fun r hr => by rw [hall r hr]; exact Bool.false_ne_true)
      simp only [markArticleSentToTelegram, hfil, List.length_nil]
      decide
    · have hmap : db.articles.map (fun r =>
          if r.id == aid then
            { r with sent_to_telegram := true, telegram_sent_at := some t }
          else r) = db.articles := by
        rw [List.map_congr_left (fun r hr => by rw [hall r hr])]
        exact List.map_id _
      simp only [markArticleSentToTelegram, hmap]

/-- Claim C3, witness for the amended theorem, on a one-article store:
marking the existing id 1 returns `true`; marking the unknown id 9 leaves
the store unchanged. -/
theorem markSent_spec_witness :
    (markArticleSentToTelegram 3
        ⟨[⟨1, "t", "u", "s", "c", "d", 0, 0, false, none⟩], [], 2⟩ 1).2 = true ∧
    (markArticleSentToTelegram 3
        ⟨[⟨1, "t", "u", "s", "c", "d", 0, 0, false, none⟩], [], 2⟩ 9).1 =
      ⟨[⟨1, "t", "u", "s", "c", "d", 0, 0, false, none⟩], [], 2⟩ :=
  ⟨((markSent_spec ⟨[⟨1, "t", "u", "s", "c", "d", 0, 0, false, none⟩], [], 2⟩ 1 3).1
      (by decide)).1,
   ((markSent_spec ⟨[⟨1, "t", "u", "s", "c", "d", 0, 0, false, none⟩], [], 2⟩ 9 3).2
      (by decide)).2⟩

/-! ## C10 — dead HTML-to-plain fallback in `send_telegram_message` -/

/-- Claim C10.  The claim (and the code's own comments) say a channel
rejection of the HTML formatting is retried once with plain formatting.
But both `continue` branches test `parse_mode == "HTML"` while the loop
iterates over `["html", None]`, so neither ever fires: with a channel
that answers HTTP 400 to the HTML attempt the function stops after the
single `"html"` attempt — even when a plain-format attempt would have
succeeded. -/
theorem sendTelegramMessage_no_plain_retry :
    sendTelegramMessage true true true "hello" (fun _ => .resp 400 false) =
      (false, [some "html"]) ∧
    sendTelegramMessage true true true "hello"
      (fun pm => if pm = none then .resp 200 true else .resp 400 false) =
      (false, [some "html"]) := by
  constructor <;> decide

/-! ## C8 — score extraction is not total -/

/-- Claim C8.  The claim says extracting the similarity score out of a
formatted relevance string never throws and an unparsable score is merely
excluded from max/aggregate computations.  In the code:

* `save_article` runs the extraction unguarded, so one malformed
  relevance string makes the whole upsert raise (`Except.error` here,
  store unchanged);
* `recent_command`'s `max(...)` generator aborts on the first malformed
  string and the handler resets `max_score` to `0.0`, discarding the
  parsable `0.90` that the same list contains (last conjunct: alone, the
  same match yields `0.90`).

Only `get_new_articles` skips just the unparsable match. -/
theorem score_extraction_not_total :
    extractScore "no score here" = none ∧
    saveArticle 0 emptyDB ⟨"t", "u", "s", "c", "d",
        [⟨"q", "no score here", "yes", "match"⟩]⟩ =
      .error "IndexError/ValueError extracting similarity score" ∧
    recentMaxScore [⟨"q1", "Verified match (similarity: 0.90)", "y", "m"⟩,
        ⟨"q2", "garbage", "y", "m"⟩] = 0 ∧
    recentMaxScore [⟨"q1", "Verified match (similarity: 0.90)", "y", "m"⟩] = mkRat 9 10 := by
  refine ⟨?_, ?_, ?_, ?_⟩ <;> decide

/-! ## C2 — duplicate-url upsert ties matches to rowid 0 -/

/-- Claim C2.  The claim says a second `save_article` with the same url
leaves one document row (true), does not overwrite the stored title
(true) and appends its match rows tied to the *existing row's identity*.
The last part fails: after an ignored `INSERT OR IGNORE` on the per-call
fresh connection, `cursor.lastrowid` is `0` — not `None` — so the
`if article_id is None` recovery `SELECT` never runs and the second
call's match row is inserted with `article_id = 0` (no article has rowid
0; article rowids start at 1) and `save_article` returns 0 instead of
the existing id 1. -/
theorem saveArticle_duplicate_url_orphans_matches :
    saveArticle 100 emptyDB ⟨"t1", "u", "s", "c", "d",
        [⟨"q1", "Verified match (similarity: 0.90)", "yes", "match"⟩]⟩ =
      .ok (⟨[⟨1, "t1", "u", "s", "c", "d", 100, 100, false, none⟩],
            [⟨1, "q1", mkRat 9 10, "yes", "match"⟩], 2⟩, 1) ∧
    saveArticle 200 ⟨[⟨1, "t1", "u", "s", "c", "d", 100, 100, false, none⟩],
        [⟨1, "q1", mkRat 9 10, "yes", "match"⟩], 2⟩
      ⟨"t2", "u", "s", "c", "d",
        [⟨"q2", "Verified match (similarity: 0.80)", "yes", "match"⟩]⟩ =
      .ok (⟨[⟨1, "t1", "u", "s", "c", "d", 100, 100, false, none⟩],
            [⟨1, "q1", mkRat 9 10, "yes", "match"⟩,
             ⟨0, "q2", mkRat 4 5, "yes", "match"⟩], 2⟩, 0) := by
  constructor <;> decide

/-! ## C1 — the dispatcher never calls `mark_delivered` -/

/-- A one-article store for the dispatcher scenario: article rowid 1
created at time 10, not yet sent, with one stored match of score 0.9. -/
def sampleDB : DB :=
  ⟨[⟨1, "T", "u", "S", "C", "D", 10, 10, false, none⟩],
   [⟨1, "q", mkRat 9 10, "yes", "match"⟩], 2⟩

/-- Claim C1.  The claim says `check_and_notify` calls
`mark_article_sent_to_telegram` on each successful send, so a sent
article is never re-sent on a later scan tick.  In the code the send
result is discarded and the store is never written: after a tick that
successfully sends the one qualifying article (one message, channel
returns success), the store is bit-for-bit unchanged — `sent_to_telegram`
still `false` — and a freshly constructed dispatcher (process restart:
checkpoint reset to now − 5 min) sends the very same article again on its
next tick. -/
theorem checkAndNotify_never_marks_delivered :
    (checkAndNotify ⟨sampleDB, 0, true⟩ 20 (fun _ => true)).2.length = 1 ∧
    (checkAndNotify ⟨sampleDB, 0, true⟩ 20 (fun _ => true)).1.db = sampleDB ∧
    sampleDB.articles.map (fun r => r.sent_to_telegram) = [false] ∧
    (checkAndNotify (initNotifState
        (checkAndNotify ⟨sampleDB, 0, true⟩ 20 (fun _ => true)).1.db 306 true)
      310 (fun _ => true)).2.length = 1 := by
  refine ⟨?_, ?_, ?_, ?_⟩ <;> decide

/-! ## C4 — exhausted retries degrade to data, never an exception -/

/-- One unfolding step of the retry loop on a failed attempt: with more
attempts left the loop continues (recording the exception); on the last
attempt it falls through to the degraded error list. -/
theorem verifyGo_fail (questions : List String) (oracle : Nat → AttemptOutcome)
    (rem att : Nat) (lastExc : Option String)
    (h : (oracle att).isSuccess = false) :
    verifyGo questions oracle (rem + 1) att lastExc =
      if rem = 0 then errorList questions ((oracle att).failMsg)
      else verifyGo questions oracle rem (att + 1) ((oracle att).failMsg) := by
  rcases ho : oracle att with t | m | m
  · rw [ho] at h
    simp [AttemptOutcome.isSuccess] at h
  · conv_lhs => unfold verifyGo
    rw [ho]
    rfl
  · conv_lhs => unfold verifyGo
    rw [ho]
    rfl

/-- Claim C4.  For every non-empty question list, when all three retry
attempts fail (rate-limit, quota or any other provider error),
`_verify_with_llm` does not propagate the exception: it returns the
degraded list carrying the last attempt's error marker, with
`is_relevant = false` and `llm_response = "Error: ..."` for every input
question. -/
theorem verify_exhausted_retries_degrade (questions : List String)
    (oracle : Nat → AttemptOutcome) (hq : questions ≠ [])
    (hfail : ∀ i, i < 3 → (oracle i).isSuccess = false) :
    verifyWithLlm questions oracle 3 = errorList questions ((oracle 2).failMsg) ∧
    ∀ r ∈ verifyWithLlm questions oracle 3,
      r.is_relevant = false ∧
      r.llm_response = "Error: " ++ ((oracle 2).failMsg.getD "Unknown error") := by
  have hne : questions.isEmpty = false := by
    cases questions with
    | nil => exact absurd rfl hq
    | cons a l => rfl
  have e3 : verifyWithLlm questions oracle 3 = verifyGo questions oracle 3 0 none := by
    unfold verifyWithLlm
    simp [hne]
  have t3 : verifyGo questions oracle 3 0 none =
      verifyGo questions oracle 2 1 ((oracle 0).failMsg) := by
    have h := verifyGo_fail questions oracle 2 0 none (hfail 0 (by omega))
    simpa using h
  have t2 : verifyGo questions oracle 2 1 ((oracle 0).failMsg) =
      verifyGo questions oracle 1 2 ((oracle 1).failMsg) := by
    have h := verifyGo_fail questions oracle 1 1 ((oracle 0).failMsg) (hfail 1 (by omega))
    simpa using h
  have t1 : verifyGo questions oracle 1 2 ((oracle 1).failMsg) =
      errorList questions ((oracle 2).failMsg) := by
    have h := verifyGo_fail questions oracle 0 2 ((oracle 1).failMsg) (hfail 2 (by omega))
    simpa using h
  have hmain : verifyWithLlm questions oracle 3 = errorList questions ((oracle 2).failMsg) :=
    ((e3.trans t3).trans t2).trans t1
  refine ⟨hmain, ?_⟩
  intro r hr
  rw [hmain] at hr
  simp only [errorList, List.mem_map] at hr
  obtain ⟨q, _, rfl⟩ := hr
  exact ⟨rfl, rfl⟩

/-- Claim C4, witness: two questions, a provider that always raises a
generic error — the result is the degraded error list. -/
theorem verify_exhausted_retries_degrade_witness :
    verifyWithLlm ["q1", "q2"] (fun _ => .otherError "boom") 3 =
      errorList ["q1", "q2"] (some "boom") :=
  (verify_exhausted_retries_degrade ["q1", "q2"] (fun _ => .otherError "boom")
    (by decide) (fun _ _ => rfl)).1

/-! ## C5 — one output per input query, in order, defaulting to "no" -/

/-- Claim C5.  For every question list and every provider response text,
the parsing stage returns exactly one result per input question in the
input order (first conjunct: projecting the questions back out of the
results gives the input list — nothing is dropped, nothing reordered),
and any question whose answer line is missing or did not parse to the
token `yes` comes out `is_relevant = false`. -/
theorem verify_parse_one_output_per_query (questions : List String) (response : String) :
    (parseVerifications questions response).map (fun r => r.question) = questions ∧
    ∀ r ∈ parseVerifications questions response,
      (answersOf questions response).lookup r.question ≠ some "yes" →
        r.is_relevant = false := by
  constructor
  · unfold parseVerifications buildResults
    rw [List.map_map]
    have hcomp : ((fun r : VerificationResult => r.question) ∘ fun q =>
        ({ question := q,
           is_relevant := (List.lookup q (answersOf questions response)).getD "no" == "yes",
           llm_response := (List.lookup q (answersOf questions response)).getD "no" } :
          VerificationResult)) = fun q => q := rfl
    rw [hcomp]
    exact List.map_id' questions
  · intro r hr hlook
    simp only [parseVerifications, buildResults, List.mem_map] at hr
    obtain ⟨q, _, rfl⟩ := hr
    have hlook' : (answersOf questions response).lookup q ≠ some "yes" := hlook
    show (((answersOf questions response).lookup q).getD "no" == "yes") = false
    cases hl : (answersOf questions response).lookup q with
    | none => rfl
    | some a =>
      rw [hl] at hlook'
      have ha : a ≠ "yes" := fun he => hlook' (by rw [he])
      simpa using ha

/-- Claim C5, witness: two questions, a response answering only the first —
both questions appear in order, and the unanswered second one (its lookup
is `none ≠ some "yes"`) is not relevant. -/
theorem verify_parse_one_output_per_query_witness :
    (parseVerifications ["alpha", "beta"] "1. yes\njunk").map (fun r => r.question) =
      ["alpha", "beta"] ∧
    ((parseVerifications ["alpha", "beta"] "1. yes\njunk").getD 1
      ⟨"", true, ""⟩).is_relevant = false :=
  ⟨(verify_parse_one_output_per_query ["alpha", "beta"] "1. yes\njunk").1,
   (verify_parse_one_output_per_query ["alpha", "beta"] "1. yes\njunk").2
     _ (by decide) (by decide)⟩

/-! ## C7 — zero verified matches: nothing persisted, nothing yielded -/

/-- Claim C7.  For every input document, if no verified match survives the
two filtering stages (in particular when the verifier answers "no" to
every candidate), `process_article` leaves the store untouched and
returns the document with an empty match list, and `process_articles`
does not yield it. -/
theorem process_zero_matches (a : InArticle) (simM : List (String × ℚ))
    (oracle : Nat → AttemptOutcome) (now : Int) (db : DB)
    (h : verifiedMatchesOf simM (verifyWithLlm (simM.map (fun m => m.1)) oracle 3) = []) :
    processArticle a simM oracle now db =
      (⟨a.title, a.url, a.source, a.content, a.date, []⟩, db) ∧
    processArticles [(a, simM)] oracle now db = ([], db) := by
  have hpa : processArticle a simM oracle now db =
      (⟨a.title, a.url, a.source, a.content, a.date, []⟩, db) := by
    simp [processArticle, h]
  exact ⟨hpa, by simp [processArticles, hpa]⟩

/-- Claim C7, witness: one candidate of score 0.9, the verifier answers
"1. no" — the store stays empty and nothing is yielded. -/
theorem process_zero_matches_witness :
    processArticle ⟨"T", "u", "S", "C", "D"⟩ [("q", mkRat 9 10)]
        (fun _ => .success "1. no") 7 emptyDB =
      (⟨"T", "u", "S", "C", "D", []⟩, emptyDB) :=
  (process_zero_matches ⟨"T", "u", "S", "C", "D"⟩ [("q", mkRat 9 10)]
    (fun _ => .success "1. no") 7 emptyDB (by decide)).1

/-! ## C9 — similarity score round trip -/

/-- Arithmetic core of the `"%.2f"` rounding model: the rounded integer
(floor, floor + 1, or the even one at an exact tie) differs from the real
value `x = n / d` by at most one half. -/
theorem roundHalf_abs {n d fl r : ℤ} (hd0 : 0 < d) (hfl : n = fl * d + r)
    (hr0 : 0 ≤ r) (hrd : r < d) (x : ℚ) (hx : x * (d : ℚ) = (n : ℚ)) :
    |((if 2 * r < d then fl else if d < 2 * r then fl + 1
       else if fl % 2 = 0 then fl else fl + 1 : ℤ) : ℚ) - x| ≤ 1 / 2 := by
  have hdq : (0 : ℚ) < (d : ℚ) := by exact_mod_cast hd0
  have hn' : ((n : ℚ)) = (fl : ℚ) * (d : ℚ) + (r : ℚ) := by exact_mod_cast hfl
  have hxval : x = (fl : ℚ) + (r : ℚ) / (d : ℚ) := by
    have hdne : ((d : ℤ) : ℚ) ≠ 0 := ne_of_gt hdq
    field_simp
    linarith [hx, hn']
  have hrq0 : (0 : ℚ) ≤ (r : ℚ) := by exact_mod_cast hr0
  have hrdq : (r : ℚ) < (d : ℚ) := by exact_mod_cast hrd
  split_ifs with h1 h2 h3
  · have hc : 2 * (r : ℚ) < (d : ℚ) := by exact_mod_cast h1
    have heq : ((fl : ℚ)) - x = -((r : ℚ) / (d : ℚ)) := by rw [hxval]; ring
    rw [heq, abs_neg, abs_of_nonneg (by positivity)]
    rw [div_le_iff₀ hdq]
    linarith
  · have hc : (d : ℚ) < 2 * (r : ℚ) := by exact_mod_cast h2
    have heq : (((fl + 1 : ℤ) : ℚ)) - x = 1 - (r : ℚ) / (d : ℚ) := by
      push_cast
      rw [hxval]
      ring
    have hlt1 : (r : ℚ) / (d : ℚ) ≤ 1 := by
      rw [div_le_one hdq]
      linarith
    have hhalf : 1 / 2 ≤ (r : ℚ) / (d : ℚ) := by
      rw [le_div_iff₀ hdq]
      linarith
    rw [heq, abs_of_nonneg (by linarith)]
    linarith
  · have h2r : 2 * r = d := by omega
    have hrne : (r : ℚ) ≠ 0 := by
      have : 0 < r := by omega
      exact_mod_cast ne_of_gt this
    have hhalf : (r : ℚ) / (d : ℚ) = 1 / 2 := by
      have hdc : (d : ℚ) = 2 * (r : ℚ) := by exact_mod_cast h2r.symm
      rw [hdc]
      field_simp
      ring
    have heq : ((fl : ℚ)) - x = -(1 / 2 : ℚ) := by rw [hxval, hhalf]; ring
    rw [heq, abs_neg, abs_of_nonneg (by norm_num)]
  · have h2r : 2 * r = d := by omega
    have hrne : (r : ℚ) ≠ 0 := by
      have : 0 < r := by omega
      exact_mod_cast ne_of_gt this
    have hhalf : (r : ℚ) / (d : ℚ) = 1 / 2 := by
      have hdc : (d : ℚ) = 2 * (r : ℚ) := by exact_mod_cast h2r.symm
      rw [hdc]
      field_simp
      ring
    have heq : (((fl + 1 : ℤ) : ℚ)) - x = 1 / 2 := by
      push_cast
      rw [hxval, hhalf]
      ring
    rw [heq, abs_of_nonneg (by norm_num)]

/-- The hundredths integer of `f"{q:.2f}"` is within half a hundredth of
`100 * q`. -/
theorem hundredths_close (q : ℚ) : |((hundredths q : ℤ) : ℚ) - 100 * q| ≤ 1 / 2 := by
  have hd0 : (0 : ℤ) < (q.den : ℤ) := by exact_mod_cast q.pos
  have hfd : (q.num * 100).fdiv (q.den : ℤ) = q.num * 100 / (q.den : ℤ) :=
    Int.fdiv_eq_ediv _ (le_of_lt hd0)
  have hem := Int.ediv_add_emod (q.num * 100) (q.den : ℤ)
  have hfl : q.num * 100 =
      (q.num * 100).fdiv (q.den : ℤ) * (q.den : ℤ) +
        (q.num * 100 - (q.num * 100).fdiv (q.den : ℤ) * (q.den : ℤ)) := by ring
  have hrem : q.num * 100 - (q.num * 100).fdiv (q.den : ℤ) * (q.den : ℤ) =
      q.num * 100 % (q.den : ℤ) := by
    rw [hfd]
    linarith [hem]
  have hr0 : 0 ≤ q.num * 100 - (q.num * 100).fdiv (q.den : ℤ) * (q.den : ℤ) := by
    rw [hrem]
    exact Int.emod_nonneg _ (ne_of_gt hd0)
  have hrd : q.num * 100 - (q.num * 100).fdiv (q.den : ℤ) * (q.den : ℤ) < (q.den : ℤ) := by
    rw [hrem]
    exact Int.emod_lt_of_pos _ hd0
  have hden : ((q.den : ℚ)) ≠ 0 := by
    have : (0 : ℚ) < (q.den : ℚ) := by exact_mod_cast hd0
    exact ne_of_gt this
  have hnum : ((q.num : ℚ)) = q * (q.den : ℚ) := by
    have h := Rat.num_div_den q
    rw [div_eq_iff hden] at h
    exact h
  have hx : (100 * q) * ((q.den : ℤ) : ℚ) = ((q.num * 100 : ℤ) : ℚ) := by
    push_cast
    rw [hnum]
    ring
  exact roundHalf_abs hd0 hfl hr0 hrd (100 * q) hx

/-- For a score in the claim's range `(0.7, 1.0]` the hundredths integer
lies in `[70, 100]`. -/
theorem hundredths_bounds (q : ℚ) (h1 : EMBEDDING_SIMILARITY_THRESHOLD < q)
    (h2 : q ≤ 1) : 70 ≤ hundredths q ∧ hundredths q ≤ 100 := by
  have hc := hundredths_close q
  have habs := abs_le.mp hc
  have hq7 : (7 : ℚ) / 10 < q := by
    have : EMBEDDING_SIMILARITY_THRESHOLD = (7 : ℚ) / 10 := by
      unfold EMBEDDING_SIMILARITY_THRESHOLD
      rw [Rat.mkRat_eq_divInt, Rat.divInt_eq_div]
      norm_num
    rw [this] at h1
    exact h1
  constructor
  · by_contra hlt
    push_neg at hlt
    have : hundredths q ≤ 69 := by omega
    have hcast : ((hundredths q : ℤ) : ℚ) ≤ 69 := by exact_mod_cast this
    linarith [habs.1]
  · by_contra hlt
    push_neg at hlt
    have : 101 ≤ hundredths q := by omega
    have hcast : (101 : ℚ) ≤ ((hundredths q : ℤ) : ℚ) := by exact_mod_cast this
    linarith [habs.2]

/-- Parsing the non-typed relevance string back recovers exactly the
formatted hundredths, for every hundredths value the claim's score range
can produce. -/
theorem extract_relevanceString_concrete (m : Nat) (h1 : 70 ≤ m) (h2 : m ≤ 100) :
    extractScore ("Verified match (similarity: " ++ fmt2Nat m ++ ")") =
      some (mkRat m 100) := by
  interval_cases m <;> decide

/-- Parsing the typed relevance string (`match_type` is always the
literal `"match"` written by `process_article`) back recovers exactly the
stored two-decimal score. -/
theorem extract_relevanceTyped_concrete (m : Nat) (h1 : 70 ≤ m) (h2 : m ≤ 100) :
    extractScore (relevanceTyped "match" (mkRat m 100)) = some (mkRat m 100) := by
  interval_cases m <;> decide

/-- Claim C9.  For every similarity score in `(threshold, 1.0]` written
during upsert: the score stored by `save_article` — obtained by parsing
the `"%.2f"`-formatted relevance string `process_article` wrote — is the
score rounded to two decimals (first conjunct); reading the article back
through an accessor re-formats the stored value and re-parsing recovers
it exactly (second conjunct, the typed shape used by
`get_recent_articles` / `get_unsent_telegram_articles` /
`get_articles_by_timeframe`; the first conjunct applied to the stored
value covers the `get_all_articles` / `get_article_by_url` shape); and
the recovered value agrees with the original score to two-decimal
precision, `|round2 q - q| ≤ 1/200` (third conjunct). -/
theorem score_roundtrip (q : ℚ) (h1 : EMBEDDING_SIMILARITY_THRESHOLD < q)
    (h2 : q ≤ 1) :
    extractScore (relevanceString q) = some (round2 q) ∧
    extractScore (relevanceTyped "match" (round2 q)) = some (round2 q) ∧
    |round2 q - q| ≤ 1 / 200 := by
  obtain ⟨hb1, hb2⟩ := hundredths_bounds q h1 h2
  have hcast : hundredths q = ((hundredths q).toNat : ℤ) :=
    (Int.toNat_of_nonneg (by omega)).symm
  set m : Nat := (hundredths q).toNat with hm
  have hm1 : 70 ≤ m := by omega
  have hm2 : m ≤ 100 := by omega
  have hfmt : fmt2 q = fmt2Nat m := by
    unfold fmt2
    rw [hcast]
    simp
  have hround : round2 q = mkRat (m : ℤ) 100 := by
    unfold round2
    rw [hcast]
  refine ⟨?_, ?_, ?_⟩
  · have hs : relevanceString q = "Verified match (similarity: " ++ fmt2Nat m ++ ")" := by
      unfold relevanceString
      rw [hfmt]
    rw [hs, hround]
    exact extract_relevanceString_concrete m hm1 hm2
  · rw [hround]
    exact extract_relevanceTyped_concrete m hm1 hm2
  · have hdiv : round2 q = ((hundredths q : ℤ) : ℚ) / 100 := by
      unfold round2
      rw [Rat.mkRat_eq_divInt, Rat.divInt_eq_div]
      norm_num
    have hsub : round2 q - q = (((hundredths q : ℤ) : ℚ) - 100 * q) / 100 := by
      rw [hdiv]
      ring
    rw [hsub, abs_div]
    have h100 : |(100 : ℚ)| = 100 := by norm_num
    rw [h100]
    linarith [hundredths_close q]

/-- Claim C9, witness at the raw score `0.876`: the stored score is `0.88`,
both read-back shapes recover it, and it is within `1/200` of `0.876`. -/
theorem score_roundtrip_witness :
    extractScore (relevanceString (mkRat 876 1000)) = some (round2 (mkRat 876 1000)) ∧
    extractScore (relevanceTyped "match" (round2 (mkRat 876 1000))) =
      some (round2 (mkRat 876 1000)) ∧
    |round2 (mkRat 876 1000) - mkRat 876 1000| ≤ 1 / 200 :=
  score_roundtrip (mkRat 876 1000) (by decide) (by norm_num [Rat.mkRat_eq_divInt, Rat.divInt_eq_div])

end LazyMatch
